import Mathlib

/-!
Shallow embedding of the role-gated CRUD API (Express routers for
assignments, exams and subjects, backed by a document store).

The three routers under src/ are modelled as pure functions over an explicit
store state (a list of documents per collection).  The authenticated user
resolved by the protect middleware is passed in as a value.  MongoDB ids are
Nat, dates are Int (milliseconds), roles and statuses are strings, exactly as
the routers compare them.  Each handler returns a response envelope
(status, success, data) and, for mutating handlers, the new store state.
-/

namespace Tracker

/-- A user as resolved by the protect middleware: identity and role string. -/
structure User where
  id : Nat
  role : String
deriving DecidableEq, Repr

/-- A stored Assignment document: title, subject reference, owner
(createdBy), due date, status string. -/
structure Assignment where
  id : Nat
  title : String
  subject : Nat
  createdBy : Nat
  dueDate : Int
  status : String
deriving DecidableEq, Repr

/-- A stored Subject document: name, code, display color, creation time. -/
structure Subject where
  id : Nat
  name : String
  code : String
  color : String
  createdAt : Int
deriving DecidableEq, Repr

/-- A stored Exam document: subject reference and date. -/
structure Exam where
  id : Nat
  subject : Nat
  date : Int
deriving DecidableEq, Repr

/-- The uniform JSON response envelope: HTTP status, success flag, data. -/
structure Envelope (α : Type) where
  status : Nat
  success : Bool
  data : Option α
deriving DecidableEq, Repr

/-- A JSON request body for Assignment create/update: dynamic shape, every
field may be absent.  Clients may supply createdBy here. -/
structure AssignmentBody where
  title : Option String
  subject : Option Nat
  createdBy : Option Nat
  dueDate : Option Int
  status : Option String
deriving DecidableEq, Repr

/-- A JSON request body for Subject create: dynamic shape. -/
structure SubjectBody where
  name : Option String
  code : Option String
  color : Option String
deriving DecidableEq, Repr

/-- Modelled from the spec: middleware/auth's authorize role gate is not under
src/.  Per sections 4.2 and 6 it passes exactly when the requester's role is
among the allowed roles, here always the single role admin; otherwise the
request fails with Forbidden (403). -/
def authorizeAdmin (user : User) : Bool :=
  user.role == "admin"

/-- Modelled from the spec: the Assignment schema (models/Assignment) is not
under src/.  Per section 3 the status enum includes at least pending and
completed; an absent status falls back to the default pending. -/
def assignmentStatusOk : Option String → Bool
  | none => true
  | some s => s == "pending" || s == "completed"

/-- Modelled from the spec: schema validation for Assignment.create
(models/Assignment is not under src/).  Per sections 3 and 4.3 the title,
subject reference and due date are required fields and status must be a
member of the enum; createdBy is checked separately since the route stamps
it. -/
def assignmentBodyValid (b : AssignmentBody) : Bool :=
  b.title.isSome && b.subject.isSome && b.dueDate.isSome && assignmentStatusOk b.status

/-- Modelled from the spec: Assignment.create builds the stored document from
the body when validation passes, filling the status default. -/
def assignmentCreateDoc (b : AssignmentBody) (newId : Nat) : Option Assignment :=
  if assignmentBodyValid b && b.createdBy.isSome then
    some ⟨newId, b.title.getD "", b.subject.getD 0, b.createdBy.getD 0,
          b.dueDate.getD 0, b.status.getD "pending"⟩
  else
    none

/-- findByIdAndUpdate's merge of the request body into a stored document:
every field present in the body overwrites the stored field. -/
def applyBody (a : Assignment) (b : AssignmentBody) : Assignment :=
  ⟨a.id, b.title.getD a.title, b.subject.getD a.subject,
   b.createdBy.getD a.createdBy, b.dueDate.getD a.dueDate, b.status.getD a.status⟩

/-- GET /api/assignments (part_000 lines 9 to 37): a student sees only the
assignments they created, any other role sees all; sorted by ascending due
date; the whole sequence is returned. -/
def assignmentList (db : List Assignment) (user : User) : List Assignment :=
  let visible := if user.role == "student"
    then db.filter (fun a => a.createdBy == user.id)
    else db
  visible.mergeSort (fun a b => decide (a.dueDate ≤ b.dueDate))

/-- GET /api/assignments/overdue (part_000 lines 42 to 77): filters to
dueDate before now and status not completed, scoped to the requester's own
records when the role is student; sorted by ascending due date. -/
def assignmentListOverdue (db : List Assignment) (user : User) (now : Int) :
    List Assignment :=
  let visible := if user.role == "student"
    then db.filter (fun a =>
      a.createdBy == user.id && decide (a.dueDate < now) && a.status != "completed")
    else db.filter (fun a =>
      decide (a.dueDate < now) && a.status != "completed")
  visible.mergeSort (fun a b => decide (a.dueDate ≤ b.dueDate))

/-- GET /api/assignments/:id (part_000 lines 82 to 113): 404 when absent,
403 when the requester is a student and not the owner, otherwise 200 with
the document. -/
def assignmentGetById (db : List Assignment) (user : User) (id : Nat) :
    Envelope Assignment :=
  match db.find? (fun a => a.id == id) with
  | none => ⟨404, false, none⟩
  | some a =>
      if user.role = "student" ∧ a.createdBy ≠ user.id then ⟨403, false, none⟩
      else ⟨200, true, some a⟩

/-- POST /api/assignments (part_000 lines 118 to 139): the route overwrites
body.createdBy with the requester's id before Assignment.create; a thrown
validation error is caught and answered as 500. -/
def assignmentCreate (db : List Assignment) (user : User) (body : AssignmentBody)
    (newId : Nat) : Envelope Assignment × List Assignment :=
  let stamped : AssignmentBody :=
    ⟨body.title, body.subject, some user.id, body.dueDate, body.status⟩
  match assignmentCreateDoc stamped newId with
  | none => (⟨500, false, none⟩, db)
  | some a => (⟨201, true, some a⟩, db ++ [a])

/-- PUT /api/assignments/:id (part_000 lines 144 to 184): 404 when absent,
403 when the requester is a student and not the owner of the stored record,
otherwise findByIdAndUpdate merges the whole request body into the record
(runValidators re-checks the status enum; failure is caught as 500). -/
def assignmentUpdate (db : List Assignment) (user : User) (id : Nat)
    (body : AssignmentBody) : Envelope Assignment × List Assignment :=
  match db.find? (fun a => a.id == id) with
  | none => (⟨404, false, none⟩, db)
  | some a =>
      if user.role = "student" ∧ a.createdBy ≠ user.id then (⟨403, false, none⟩, db)
      else if assignmentStatusOk body.status then
        let a' := applyBody a body
        (⟨200, true, some a'⟩, db.map (fun x => if x.id = id then a' else x))
      else (⟨500, false, none⟩, db)

/-- DELETE /api/assignments/:id (part_000 lines 189 to 210): gated by
authorize admin, then findByIdAndDelete; 404 when no record matches. -/
def assignmentDelete (db : List Assignment) (user : User) (id : Nat) :
    Envelope Assignment × List Assignment :=
  if authorizeAdmin user then
    match db.find? (fun a => a.id == id) with
    | none => (⟨404, false, none⟩, db)
    | some _ => (⟨200, true, none⟩, db.filter (fun x => x.id != id))
  else (⟨403, false, none⟩, db)

/-- Modelled from the spec: schema validation for Subject.create
(models/Subject is not under src/).  Per section 3 a Subject carries name,
code and display color; these input fields are required. -/
def subjectBodyValid (b : SubjectBody) : Bool :=
  b.name.isSome && b.code.isSome && b.color.isSome

/-- Modelled from the spec: Subject.create builds the stored document from the
body when validation passes, generating the id and the creation timestamp. -/
def subjectCreateDoc (b : SubjectBody) (newId : Nat) (now : Int) : Option Subject :=
  if subjectBodyValid b then
    some ⟨newId, b.name.getD "", b.code.getD "", b.color.getD "", now⟩
  else
    none

/-- GET /api/subjects (subjects.js lines 9 to 24): all subjects, sorted by
descending creation time; the whole sequence is returned. -/
def subjectList (db : List Subject) : List Subject :=
  db.mergeSort (fun a b => decide (b.createdAt ≤ a.createdAt))

/-- GET /api/subjects/:id (subjects.js lines 29 to 50): 404 when absent,
otherwise 200 with the document, for any authenticated user. -/
def subjectGetById (db : List Subject) (id : Nat) : Envelope Subject :=
  match db.find? (fun s => s.id == id) with
  | none => ⟨404, false, none⟩
  | some s => ⟨200, true, some s⟩

/-- POST /api/subjects (subjects.js lines 55 to 69): gated by authorize
admin, then Subject.create; a thrown validation error is caught and answered
as 500. -/
def subjectCreate (db : List Subject) (user : User) (body : SubjectBody)
    (newId : Nat) (now : Int) : Envelope Subject × List Subject :=
  if authorizeAdmin user then
    match subjectCreateDoc body newId now with
    | none => (⟨500, false, none⟩, db)
    | some s => (⟨201, true, some s⟩, db ++ [s])
  else (⟨403, false, none⟩, db)

/-- DELETE /api/subjects/:id (subjects.js lines 107 to 128): gated by
authorize admin, then findByIdAndDelete; 404 when no record matches. -/
def subjectDelete (db : List Subject) (user : User) (id : Nat) :
    Envelope Subject × List Subject :=
  if authorizeAdmin user then
    match db.find? (fun s => s.id == id) with
    | none => (⟨404, false, none⟩, db)
    | some _ => (⟨200, true, none⟩, db.filter (fun x => x.id != id))
  else (⟨403, false, none⟩, db)

/-- GET /api/exams (exams.js lines 9 to 26): all exams, sorted by ascending
date; the whole sequence is returned. -/
def examList (db : List Exam) : List Exam :=
  db.mergeSort (fun a b => decide (a.date ≤ b.date))

/-- DELETE /api/exams/:id (exams.js lines 113 to 134): gated by authorize
admin, then findByIdAndDelete; 404 when no record matches. -/
def examDelete (db : List Exam) (user : User) (id : Nat) :
    Envelope Exam × List Exam :=
  if authorizeAdmin user then
    match db.find? (fun e => e.id == id) with
    | none => (⟨404, false, none⟩, db)
    | some _ => (⟨200, true, none⟩, db.filter (fun x => x.id != id))
  else (⟨403, false, none⟩, db)

/-! ## Helper lemmas -/

theorem assignmentCreateDoc_createdBy {b : AssignmentBody} {newId : Nat}
    {a : Assignment} (h : assignmentCreateDoc b newId = some a) :
    b.createdBy = some a.createdBy := by
  unfold assignmentCreateDoc at h
  split at h
  · next hc =>
      have hcb : b.createdBy.isSome = true := by
        have hc2 := hc
        simp only [Bool.and_eq_true] at hc2
        exact hc2.2
      cases hb : b.createdBy with
      | none => rw [hb] at hcb; simp at hcb
      | some c =>
          injection h with h
          subst h
          simp [hb]
  · exact Option.noConfusion h

theorem pairwise_mergeSort_of {α : Type} (r : α → α → Bool)
    (htrans : ∀ a b c, r a b = true → r b c = true → r a c = true)
    (htotal : ∀ a b, (r a b || r b a) = true) (l : List α) :
    (l.mergeSort r).Pairwise (fun a b => r a b = true) :=
  @List.sorted_mergeSort α r htrans htotal l

/-! ## Claims -/

/-- C1: for every Assignment create request by an authenticated requester, the
created record's createdBy equals the requester's id, whatever createdBy value
the request payload carried. -/
theorem C1_create_stamps_owner (db : List Assignment) (user : User)
    (body : AssignmentBody) (newId : Nat) (a : Assignment)
    (h : (assignmentCreate db user body newId).1.data = some a) :
    a.createdBy = user.id := by
  simp only [assignmentCreate] at h
  split at h
  · next heq => exact Option.noConfusion h
  · next a' heq =>
      simp only [Option.some.injEq] at h
      subst h
      have h2 := assignmentCreateDoc_createdBy heq
      simp only [Option.some.injEq] at h2
      exact h2.symm

/-- C1 witness: a student with id 7 creates an assignment whose payload claims
createdBy 99; the stored record's createdBy is 7. -/
theorem C1_create_stamps_owner_witness :
    (assignmentCreate [] ⟨7, "student"⟩ ⟨some "HW1", some 2, some 99, some 0, none⟩
        5).1.data = some ⟨5, "HW1", 2, 7, 0, "pending"⟩ ∧
    (⟨5, "HW1", 2, 7, 0, "pending"⟩ : Assignment).createdBy = 7 :=
  ⟨rfl, C1_create_stamps_owner [] ⟨7, "student"⟩
    ⟨some "HW1", some 2, some 99, some 0, none⟩ 5 ⟨5, "HW1", 2, 7, 0, "pending"⟩ rfl⟩

/-- C2 counterexample: the claim that no update request alters createdBy is
false.  The owning student (id 1) updates their own assignment with a payload
carrying createdBy 2: the request succeeds with 200 and the stored record's
createdBy becomes 2. -/
theorem C2_counterexample :
    (assignmentUpdate [⟨5, "HW1", 2, 1, 0, "pending"⟩] ⟨1, "student"⟩ 5
        ⟨none, none, some 2, none, none⟩).1.status = 200 ∧
    (assignmentUpdate [⟨5, "HW1", 2, 1, 0, "pending"⟩] ⟨1, "student"⟩ 5
        ⟨none, none, some 2, none, none⟩).2 = [⟨5, "HW1", 2, 2, 0, "pending"⟩] ∧
    (⟨5, "HW1", 2, 2, 0, "pending"⟩ : Assignment).createdBy ≠
      (⟨5, "HW1", 2, 1, 0, "pending"⟩ : Assignment).createdBy := by
  refine ⟨rfl, rfl, by decide⟩

/-- C2 (amended): createdBy is stamped at creation with the requester's id,
and an update request whose payload does not itself carry a createdBy field
leaves every stored assignment's id and createdBy unchanged (over a store
with pairwise distinct ids); a payload that does carry createdBy can alter
the owner. -/
theorem C2_update_without_createdBy_preserves_owner (db : List Assignment)
    (user : User) (id : Nat) (body : AssignmentBody)
    (hnd : (db.map Assignment.id).Nodup) (hb : body.createdBy = none) :
    (assignmentUpdate db user id body).2.map (fun a => (a.id, a.createdBy)) =
      db.map (fun a => (a.id, a.createdBy)) := by
  simp only [assignmentUpdate]
  split
  · rfl
  · next a heq =>
      split
      · rfl
      · split
        · simp only [List.map_map]
          apply List.map_congr_left
          intro x hx
          by_cases hxid : x.id = id
          · have haid : a.id = id := by simpa using List.find?_some heq
            have ham : a ∈ db := List.mem_of_find?_eq_some heq
            have hxa : x = a :=
              List.inj_on_of_nodup_map hnd hx ham (by rw [hxid, haid])
            subst hxa
            simp [hxid, applyBody, hb]
          · simp [hxid]
        · rfl

/-- C2 witness: a createdBy-free update of a stored assignment changes its
title but keeps id 5 and owner 1. -/
theorem C2_update_without_createdBy_preserves_owner_witness :
    ((assignmentUpdate [⟨5, "HW1", 2, 1, 0, "pending"⟩] ⟨1, "student"⟩ 5
        ⟨some "HW2", none, none, none, none⟩).2.map (fun a => (a.id, a.createdBy)) =
      ([⟨5, "HW1", 2, 1, 0, "pending"⟩] : List Assignment).map
        (fun a => (a.id, a.createdBy))) :=
  C2_update_without_createdBy_preserves_owner [⟨5, "HW1", 2, 1, 0, "pending"⟩]
    ⟨1, "student"⟩ 5 ⟨some "HW2", none, none, none, none⟩ (by decide) rfl

/-- C3: a student who does not own an existing assignment gets 403 from both
getById and update; an admin gets 200 from both on any existing assignment
(with an update payload passing the validators). -/
theorem C3_student_forbidden_admin_allowed (db : List Assignment) (s adm : User)
    (id : Nat) (a : Assignment) (body : AssignmentBody)
    (hs : s.role = "student") (hadm : adm.role = "admin")
    (hfind : db.find? (fun x => x.id == id) = some a)
    (hown : a.createdBy ≠ s.id)
    (hv : assignmentStatusOk body.status = true) :
    (assignmentGetById db s id).status = 403 ∧
    (assignmentGetById db s id).success = false ∧
    (assignmentUpdate db s id body).1.status = 403 ∧
    (assignmentUpdate db s id body).1.success = false ∧
    (assignmentGetById db adm id).status = 200 ∧
    (assignmentGetById db adm id).success = true ∧
    (assignmentUpdate db adm id body).1.status = 200 ∧
    (assignmentUpdate db adm id body).1.success = true := by
  have hne : adm.role ≠ "student" := by rw [hadm]; decide
  simp only [assignmentGetById, assignmentUpdate, hfind]
  simp [hs, hown, hne, hv]

/-- C3 witness: student 2 is refused on assignment 5 owned by student 1, and
admin 9 succeeds on it. -/
theorem C3_student_forbidden_admin_allowed_witness :
    (assignmentGetById [⟨5, "HW1", 2, 1, 0, "pending"⟩] ⟨2, "student"⟩ 5).status =
        403 ∧
    (assignmentGetById [⟨5, "HW1", 2, 1, 0, "pending"⟩] ⟨2, "student"⟩ 5).success =
        false ∧
    (assignmentUpdate [⟨5, "HW1", 2, 1, 0, "pending"⟩] ⟨2, "student"⟩ 5
        ⟨some "X", none, none, none, none⟩).1.status = 403 ∧
    (assignmentUpdate [⟨5, "HW1", 2, 1, 0, "pending"⟩] ⟨2, "student"⟩ 5
        ⟨some "X", none, none, none, none⟩).1.success = false ∧
    (assignmentGetById [⟨5, "HW1", 2, 1, 0, "pending"⟩] ⟨9, "admin"⟩ 5).status =
        200 ∧
    (assignmentGetById [⟨5, "HW1", 2, 1, 0, "pending"⟩] ⟨9, "admin"⟩ 5).success =
        true ∧
    (assignmentUpdate [⟨5, "HW1", 2, 1, 0, "pending"⟩] ⟨9, "admin"⟩ 5
        ⟨some "X", none, none, none, none⟩).1.status = 200 ∧
    (assignmentUpdate [⟨5, "HW1", 2, 1, 0, "pending"⟩] ⟨9, "admin"⟩ 5
        ⟨some "X", none, none, none, none⟩).1.success = true :=
  C3_student_forbidden_admin_allowed [⟨5, "HW1", 2, 1, 0, "pending"⟩]
    ⟨2, "student"⟩ ⟨9, "admin"⟩ 5 ⟨5, "HW1", 2, 1, 0, "pending"⟩
    ⟨some "X", none, none, none, none⟩ rfl rfl rfl (by decide) rfl

/-- C4: delete on any of the three collections answers 403 and leaves the
store unchanged whenever the requester's role is not admin, whoever owns the
targeted record. -/
theorem C4_delete_requires_admin (adb : List Assignment) (sdb : List Subject)
    (edb : List Exam) (user : User) (id : Nat) (h : user.role ≠ "admin") :
    assignmentDelete adb user id = (⟨403, false, none⟩, adb) ∧
    subjectDelete sdb user id = (⟨403, false, none⟩, sdb) ∧
    examDelete edb user id = (⟨403, false, none⟩, edb) := by
  have hA : authorizeAdmin user = false := by
    simp [authorizeAdmin, h]
  refine ⟨?_, ?_, ?_⟩ <;> simp [assignmentDelete, subjectDelete, examDelete, hA]

/-- C4 witness: student 1 owns assignment 5 and still gets 403 deleting it;
the same student gets 403 on a subject and an exam delete. -/
theorem C4_delete_requires_admin_witness :
    assignmentDelete [⟨5, "HW1", 2, 1, 0, "pending"⟩] ⟨1, "student"⟩ 5 =
      (⟨403, false, none⟩, [⟨5, "HW1", 2, 1, 0, "pending"⟩]) ∧
    subjectDelete [⟨2, "Math", "MATH101", "red", 0⟩] ⟨1, "student"⟩ 2 =
      (⟨403, false, none⟩, [⟨2, "Math", "MATH101", "red", 0⟩]) ∧
    examDelete [⟨3, 2, 10⟩] ⟨1, "student"⟩ 3 = (⟨403, false, none⟩, [⟨3, 2, 10⟩]) :=
  C4_delete_requires_admin [⟨5, "HW1", 2, 1, 0, "pending"⟩]
    [⟨2, "Math", "MATH101", "red", 0⟩] [⟨3, 2, 10⟩] ⟨1, "student"⟩ 5 (by decide)

/-- C5: a requester whose role string is anything other than the exact string
student bypasses the ownership check on assignments: getById answers 200 with
the document and update answers 200, on any existing assignment, whoever owns
it. -/
theorem C5_nonstudent_bypasses_ownership (db : List Assignment) (user : User)
    (id : Nat) (a : Assignment) (body : AssignmentBody)
    (hrole : user.role ≠ "student")
    (hfind : db.find? (fun x => x.id == id) = some a)
    (hv : assignmentStatusOk body.status = true) :
    assignmentGetById db user id = ⟨200, true, some a⟩ ∧
    (assignmentUpdate db user id body).1.status = 200 ∧
    (assignmentUpdate db user id body).1.success = true := by
  simp only [assignmentGetById, assignmentUpdate, hfind]
  simp [hrole, hv]

/-- C5 witness: a requester with role teacher, neither owner nor admin, reads
and updates assignment 5 owned by user 1 with 200. -/
theorem C5_nonstudent_bypasses_ownership_witness :
    assignmentGetById [⟨5, "HW1", 2, 1, 0, "pending"⟩] ⟨3, "teacher"⟩ 5 =
      ⟨200, true, some ⟨5, "HW1", 2, 1, 0, "pending"⟩⟩ ∧
    (assignmentUpdate [⟨5, "HW1", 2, 1, 0, "pending"⟩] ⟨3, "teacher"⟩ 5
        ⟨some "X", none, none, none, none⟩).1.status = 200 ∧
    (assignmentUpdate [⟨5, "HW1", 2, 1, 0, "pending"⟩] ⟨3, "teacher"⟩ 5
        ⟨some "X", none, none, none, none⟩).1.success = true :=
  C5_nonstudent_bypasses_ownership [⟨5, "HW1", 2, 1, 0, "pending"⟩] ⟨3, "teacher"⟩
    5 ⟨5, "HW1", 2, 1, 0, "pending"⟩ ⟨some "X", none, none, none, none⟩
    (by decide) rfl rfl

/-- C6: for a student, the overdue listing holds exactly the assignments they
created whose due date is strictly before now and whose status is not
completed; for an admin, exactly that subset over the whole store. -/
theorem C6_overdue_exact (db : List Assignment) (user : User) (now : Int)
    (a : Assignment) :
    (user.role = "student" →
      (a ∈ assignmentListOverdue db user now ↔
        a ∈ db ∧ a.createdBy = user.id ∧ a.dueDate < now ∧ a.status ≠ "completed")) ∧
    (user.role = "admin" →
      (a ∈ assignmentListOverdue db user now ↔
        a ∈ db ∧ a.dueDate < now ∧ a.status ≠ "completed")) := by
  constructor
  · intro hrole
    simp [assignmentListOverdue, hrole, List.mem_filter, and_assoc]
  · intro hrole
    have hb : (user.role == "student") = false := by simp [hrole]
    simp [assignmentListOverdue, hb, List.mem_filter, and_assoc]

/-- C6 witness: student 1's overdue listing over a one-element store contains
their pending assignment due at time -1 when now is 0, and the membership is
exactly the stated conjunction. -/
theorem C6_overdue_exact_witness :
    (⟨5, "HW1", 2, 1, -1, "pending"⟩ : Assignment) ∈
        assignmentListOverdue [⟨5, "HW1", 2, 1, -1, "pending"⟩] ⟨1, "student"⟩ 0 ↔
      (⟨5, "HW1", 2, 1, -1, "pending"⟩ : Assignment) ∈
          ([⟨5, "HW1", 2, 1, -1, "pending"⟩] : List Assignment) ∧
        (1 : Nat) = 1 ∧ (-1 : Int) < 0 ∧ ("pending" : String) ≠ "completed" :=
  (C6_overdue_exact [⟨5, "HW1", 2, 1, -1, "pending"⟩] ⟨1, "student"⟩ 0
    ⟨5, "HW1", 2, 1, -1, "pending"⟩).1 rfl

/-- C7: every list endpoint returns the complete scoped collection with no
pagination: the assignment listing is a permutation of the scoped store
sorted by ascending due date, the exam listing a permutation of the exam
store sorted by ascending date, the subject listing a permutation of the
subject store sorted by descending creation time. -/
theorem C7_lists_sorted_complete (adb : List Assignment) (sdb : List Subject)
    (edb : List Exam) (user : User) :
    (assignmentList adb user).Pairwise (fun a b => a.dueDate ≤ b.dueDate) ∧
    List.Perm (assignmentList adb user)
      (if user.role = "student" then adb.filter (fun a => a.createdBy == user.id)
       else adb) ∧
    (examList edb).Pairwise (fun a b => a.date ≤ b.date) ∧
    List.Perm (examList edb) edb ∧
    (subjectList sdb).Pairwise (fun a b => b.createdAt ≤ a.createdAt) ∧
    List.Perm (subjectList sdb) sdb := by
  refine ⟨?_, ?_, ?_, ?_, ?_, ?_⟩
  · simp only [assignmentList]
    have h := pairwise_mergeSort_of
      (fun a b : Assignment => decide (a.dueDate ≤ b.dueDate))
      (fun a b c hab hbc => by
        simp only [decide_eq_true_eq] at *
        omega)
      (fun a b => by simpa using Int.le_total a.dueDate b.dueDate)
      (if user.role == "student" then adb.filter (fun a => a.createdBy == user.id)
       else adb)
    exact h.imp (fun hx => by simpa using hx)
  · simp only [assignmentList]
    have h := List.mergeSort_perm
      (if user.role == "student" then adb.filter (fun a => a.createdBy == user.id)
       else adb)
      (fun a b => decide (a.dueDate ≤ b.dueDate))
    by_cases hrole : user.role = "student"
    · simpa [hrole] using h
    · simpa [hrole] using h
  · simp only [examList]
    have h := pairwise_mergeSort_of (fun a b : Exam => decide (a.date ≤ b.date))
      (fun a b c hab hbc => by
        simp only [decide_eq_true_eq] at *
        omega)
      (fun a b => by simpa using Int.le_total a.date b.date) edb
    exact h.imp (fun hx => by simpa using hx)
  · exact List.mergeSort_perm edb _
  · simp only [subjectList]
    have h := pairwise_mergeSort_of
      (fun a b : Subject => decide (b.createdAt ≤ a.createdAt))
      (fun a b c hab hbc => by
        simp only [decide_eq_true_eq] at *
        omega)
      (fun a b => by simpa using Int.le_total b.createdAt a.createdAt) sdb
    exact h.imp (fun hx => by simpa using hx)
  · exact List.mergeSort_perm sdb _

/-- C8: deleting an absent id as admin answers 404 and leaves the store
unchanged, and repeating the very same delete answers 404 again over the
resulting store, for each of the three collections. -/
theorem C8_delete_absent_idempotent (adb : List Assignment) (sdb : List Subject)
    (edb : List Exam) (user : User) (id : Nat) (hadm : user.role = "admin")
    (ha : ∀ a ∈ adb, a.id ≠ id) (hs : ∀ s ∈ sdb, s.id ≠ id)
    (he : ∀ e ∈ edb, e.id ≠ id) :
    assignmentDelete adb user id = (⟨404, false, none⟩, adb) ∧
    assignmentDelete (assignmentDelete adb user id).2 user id =
      (⟨404, false, none⟩, adb) ∧
    subjectDelete sdb user id = (⟨404, false, none⟩, sdb) ∧
    subjectDelete (subjectDelete sdb user id).2 user id =
      (⟨404, false, none⟩, sdb) ∧
    examDelete edb user id = (⟨404, false, none⟩, edb) ∧
    examDelete (examDelete edb user id).2 user id = (⟨404, false, none⟩, edb) := by
  have hA : authorizeAdmin user = true := by simp [authorizeAdmin, hadm]
  have hfa : adb.find? (fun a => a.id == id) = none :=
    List.find?_eq_none.mpr (fun x hx => by simpa using ha x hx)
  have hfs : sdb.find? (fun s => s.id == id) = none :=
    List.find?_eq_none.mpr (fun x hx => by simpa using hs x hx)
  have hfe : edb.find? (fun e => e.id == id) = none :=
    List.find?_eq_none.mpr (fun x hx => by simpa using he x hx)
  have h1 : assignmentDelete adb user id = (⟨404, false, none⟩, adb) := by
    simp [assignmentDelete, hA, hfa]
  have h2 : subjectDelete sdb user id = (⟨404, false, none⟩, sdb) := by
    simp [subjectDelete, hA, hfs]
  have h3 : examDelete edb user id = (⟨404, false, none⟩, edb) := by
    simp [examDelete, hA, hfe]
  exact ⟨h1, by rw [h1]; exact h1, h2, by rw [h2]; exact h2, h3, by rw [h3]; exact h3⟩

/-- C8 witness: admin 9 deletes the absent id 3 twice from one-element
stores; both calls answer 404 and the stores keep their single records. -/
theorem C8_delete_absent_idempotent_witness :
    assignmentDelete [⟨5, "HW1", 2, 1, 0, "pending"⟩] ⟨9, "admin"⟩ 3 =
      (⟨404, false, none⟩, [⟨5, "HW1", 2, 1, 0, "pending"⟩]) ∧
    assignmentDelete
        (assignmentDelete [⟨5, "HW1", 2, 1, 0, "pending"⟩] ⟨9, "admin"⟩ 3).2
        ⟨9, "admin"⟩ 3 = (⟨404, false, none⟩, [⟨5, "HW1", 2, 1, 0, "pending"⟩]) ∧
    subjectDelete [⟨2, "Math", "MATH101", "red", 0⟩] ⟨9, "admin"⟩ 3 =
      (⟨404, false, none⟩, [⟨2, "Math", "MATH101", "red", 0⟩]) ∧
    subjectDelete
        (subjectDelete [⟨2, "Math", "MATH101", "red", 0⟩] ⟨9, "admin"⟩ 3).2
        ⟨9, "admin"⟩ 3 = (⟨404, false, none⟩, [⟨2, "Math", "MATH101", "red", 0⟩]) ∧
    examDelete [⟨7, 2, 10⟩] ⟨9, "admin"⟩ 3 = (⟨404, false, none⟩, [⟨7, 2, 10⟩]) ∧
    examDelete (examDelete [⟨7, 2, 10⟩] ⟨9, "admin"⟩ 3).2 ⟨9, "admin"⟩ 3 =
      (⟨404, false, none⟩, [⟨7, 2, 10⟩]) :=
  C8_delete_absent_idempotent [⟨5, "HW1", 2, 1, 0, "pending"⟩]
    [⟨2, "Math", "MATH101", "red", 0⟩] [⟨7, 2, 10⟩] ⟨9, "admin"⟩ 3 rfl
    (by decide) (by decide) (by decide)

/-- C9: an admin creating a Subject from a fully-populated payload gets 201,
and immediately fetching the generated id returns the record carrying exactly
the payload's name, code and color plus the generated id and the creation
timestamp. -/
theorem C9_subject_create_roundtrip (db : List Subject) (user : User)
    (n c col : String) (newId : Nat) (now : Int)
    (hadm : user.role = "admin") (hfresh : ∀ s ∈ db, s.id ≠ newId) :
    (subjectCreate db user ⟨some n, some c, some col⟩ newId now).1.status = 201 ∧
    subjectGetById (subjectCreate db user ⟨some n, some c, some col⟩ newId now).2
        newId = ⟨200, true, some ⟨newId, n, c, col, now⟩⟩ := by
  have hA : authorizeAdmin user = true := by simp [authorizeAdmin, hadm]
  have hdoc : subjectCreateDoc ⟨some n, some c, some col⟩ newId now =
      some ⟨newId, n, c, col, now⟩ := by
    simp [subjectCreateDoc, subjectBodyValid]
  have hcreate : subjectCreate db user ⟨some n, some c, some col⟩ newId now =
      (⟨201, true, some ⟨newId, n, c, col, now⟩⟩,
        db ++ [⟨newId, n, c, col, now⟩]) := by
    simp [subjectCreate, hA, hdoc]
  have hfa : db.find? (fun s => s.id == newId) = none :=
    List.find?_eq_none.mpr (fun x hx => by simpa using hfresh x hx)
  rw [hcreate]
  exact ⟨rfl, by simp [subjectGetById, List.find?_append, hfa]⟩

/-- C9 witness: admin 9 creates the Math subject with id 1 at time 5 and
fetches it back unchanged. -/
theorem C9_subject_create_roundtrip_witness :
    (subjectCreate [] ⟨9, "admin"⟩ ⟨some "Math", some "MATH101", some "red"⟩ 1
        5).1.status = 201 ∧
    subjectGetById
        (subjectCreate [] ⟨9, "admin"⟩ ⟨some "Math", some "MATH101", some "red"⟩ 1
          5).2 1 = ⟨200, true, some ⟨1, "Math", "MATH101", "red", 5⟩⟩ :=
  C9_subject_create_roundtrip [] ⟨9, "admin"⟩ "Math" "MATH101" "red" 1 5 rfl
    (by simp)

/-- C10: a create or update request whose payload fails schema validation is
answered with the generic 500 failure envelope, success false and the store
unchanged: Subject create on an invalid body, Assignment create on an invalid
body, and Assignment update on a body whose status fails the validators. -/
theorem C10_invalid_payload_yields_500 (sdb : List Subject)
    (adb adb2 : List Assignment) (user : User) (sbody : SubjectBody)
    (abody body : AssignmentBody) (newId id : Nat) (now : Int) (a : Assignment)
    (hadm : user.role = "admin")
    (hsb : subjectBodyValid sbody = false)
    (hab : assignmentBodyValid abody = false)
    (hfind : adb2.find? (fun x => x.id == id) = some a)
    (hbad : assignmentStatusOk body.status = false) :
    subjectCreate sdb user sbody newId now = (⟨500, false, none⟩, sdb) ∧
    assignmentCreate adb user abody newId = (⟨500, false, none⟩, adb) ∧
    assignmentUpdate adb2 user id body = (⟨500, false, none⟩, adb2) := by
  have hA : authorizeAdmin user = true := by simp [authorizeAdmin, hadm]
  have hne : user.role ≠ "student" := by rw [hadm]; decide
  have hstamp : assignmentBodyValid
      ⟨abody.title, abody.subject, some user.id, abody.dueDate, abody.status⟩ =
      false := hab
  refine ⟨?_, ?_, ?_⟩
  · simp [subjectCreate, hA, subjectCreateDoc, hsb]
  · simp [assignmentCreate, assignmentCreateDoc, hstamp]
  · simp [assignmentUpdate, hfind, hne, hbad]

/-- C10 witness: a subject body missing its name, an assignment body missing
its title, and an update body with a status outside the enum each produce the
500 failure envelope with the stores unchanged. -/
theorem C10_invalid_payload_yields_500_witness :
    subjectCreate [] ⟨9, "admin"⟩ ⟨none, some "MATH101", some "red"⟩ 1 5 =
      (⟨500, false, none⟩, []) ∧
    assignmentCreate [] ⟨9, "admin"⟩ ⟨none, some 2, some 99, some 0, none⟩ 5 =
      (⟨500, false, none⟩, []) ∧
    assignmentUpdate [⟨5, "HW1", 2, 1, 0, "pending"⟩] ⟨9, "admin"⟩ 5
        ⟨none, none, none, none, some "bogus"⟩ =
      (⟨500, false, none⟩, [⟨5, "HW1", 2, 1, 0, "pending"⟩]) :=
  C10_invalid_payload_yields_500 [] [] [⟨5, "HW1", 2, 1, 0, "pending"⟩]
    ⟨9, "admin"⟩ ⟨none, some "MATH101", some "red"⟩
    ⟨none, some 2, some 99, some 0, none⟩ ⟨none, none, none, none, some "bogus"⟩
    1 5 5 ⟨5, "HW1", 2, 1, 0, "pending"⟩ rfl rfl rfl rfl rfl

end Tracker
